import Mathlib

/-!
Shallow embedding of the loomra data-consistency and bulk-transfer engine
(src-tauri/src/database.rs and src-tauri/src/commands/{goals,habits,
habit_completions,settings}.rs).

Modelling conventions, fixed once for the whole file:

* The SQLite database is modelled as an explicit record of the five tables the
  engine operates on: goals, tasks, habits, habit_completions, and the settings
  singleton.  The notification tables are never touched by the modelled
  operations except through the habit cascade, which only removes rows from
  tables outside this model; they are omitted.
* Per database.rs, configure_connection sets PRAGMA foreign_keys = ON, so the
  model enforces the declared foreign keys: tasks.goal_id REFERENCES goals(id)
  ON DELETE CASCADE, tasks.parent_task_id REFERENCES tasks(id) ON DELETE
  CASCADE, habit_completions.habit_id REFERENCES habits(id) ON DELETE CASCADE.
* REAL (f64) columns are carried opaquely: the modelled operations only copy
  them, never compute with them, so they are represented by their 64 bit
  pattern.
* The date TEXT column of habit_completions holds ISO dates; the only operation
  that does more than copy or compare them is the streak CTE, which uses
  date(d, +1 day).  Dates are therefore modelled as integers (day numbers),
  where adding one day is integer successor; equality and ordering of ISO date
  strings agree with those of their day numbers.
* TEXT columns holding JSON (habits.linked_goals) are modelled by their parsed
  value (a list of goal id strings), since every modelled operation writes the
  column via serde_json::to_string of such a list and reads it back with
  serde_json::from_str.
* Fallible Rust functions returning Result<T, String> become
  Except String T.  A rusqlite transaction is modelled by threading the
  database state through the statements and discarding the partial state when
  an error occurs before commit (rusqlite rolls the transaction back on drop).
-/

abbrev F64 := UInt64

abbrev Day := Int

/-- Row of the goals table; identical to the source struct GoalData, which
lists every column of the table. -/
structure GoalData where
  id : String
  title : String
  description : String
  notes : String
  category : String
  priority : String
  status : String
  color : String
  icon : String
  deadline : Option String
  created_at : String
  updated_at : String
  deriving DecidableEq, Repr

/-- Row of the tasks table, one field per column of the CREATE TABLE in
database.rs (including parent_task_id and updated_at). -/
structure TaskRow where
  id : String
  title : String
  done : Bool
  goal_id : Option String
  parent_task_id : Option String
  due_date : Option String
  priority : String
  created_at : String
  updated_at : String
  deriving DecidableEq, Repr

/-- The source struct TaskData used by the export/import document: only seven
of the nine task columns (no parent_task_id, no updated_at). -/
structure TaskData where
  id : String
  title : String
  done : Bool
  goal_id : Option String
  due_date : Option String
  priority : String
  created_at : String
  deriving DecidableEq, Repr

/-- Row of the habits table; identical to the source struct HabitData (the
linked_goals TEXT column is modelled by its parsed list of goal ids). -/
structure HabitRow where
  id : String
  name : String
  category : String
  icon : String
  color : String
  target_amount : F64
  unit : String
  frequency_type : String
  frequency_value : String
  priority : String
  notes : String
  linked_goals : List String
  start_date : String
  reminder_enabled : Bool
  reminder_time : String
  created_at : String
  updated_at : String
  deriving DecidableEq, Repr

abbrev HabitData := HabitRow

/-- Row of the habit_completions table; identical to the source structs
HabitCompletion and HabitCompletionData, which list every column. -/
structure HabitCompletionData where
  id : String
  habit_id : String
  date : Day
  completed : Bool
  actual_amount : F64
  target_amount : F64
  completed_at : Option String
  note : String
  mood : Option String
  difficulty : Option String
  skipped : Bool
  created_at : String
  updated_at : String
  deriving DecidableEq, Repr

structure AppearanceSettings where
  theme : String
  week_starts_on : String
  timezone : String
  deriving DecidableEq, Repr

structure HabitSettings where
  default_reminder : Bool
  default_reminder_time : String
  default_priority : String
  deriving DecidableEq, Repr

structure GoalSettings where
  deadline_warning_days : Nat
  default_category : String
  show_progress_percentage : Bool
  deriving DecidableEq, Repr

structure NotificationSettings where
  habit_reminders : Bool
  goal_deadlines : Bool
  streak_milestones : Bool
  daily_summary : Bool
  weekly_summary : Bool
  motivational_quotes : Bool
  deriving DecidableEq, Repr

structure DataSettings where
  auto_backup : Bool
  backup_frequency : String
  deriving DecidableEq, Repr

structure AppSettings where
  appearance : AppearanceSettings
  habits : HabitSettings
  goals : GoalSettings
  notifications : NotificationSettings
  data : DataSettings
  deriving DecidableEq, Repr

/-- The database state: the five tables the engine operates on.  The settings
table holds at most one row (id = 1) whose data column is a serialized
AppSettings; it is modelled by the parsed value.  The updated_at column of the
settings row is always rewritten to datetime(now) on save and never read back,
so it is not part of the observable state. -/
structure DB where
  goals : List GoalData
  tasks : List TaskRow
  habits : List HabitRow
  habit_completions : List HabitCompletionData
  settings : Option AppSettings
  deriving DecidableEq, Repr

structure ExportMetadata where
  export_date : String
  version : String
  total_records : Nat
  deriving DecidableEq, Repr

/-- The export/import document (source struct ExportData). -/
structure ExportData where
  settings : AppSettings
  goals : List GoalData
  tasks : List TaskData
  habits : List HabitData
  habit_completions : List HabitCompletionData
  export_metadata : ExportMetadata
  deriving DecidableEq, Repr

def isErrorE {α : Type} : Except String α → Bool
  | .error _ => true
  | .ok _ => false

-- ===========================================================================
-- Streak/Aggregate Engine: get_habit_streak (habit_completions.rs 248-288)
-- ===========================================================================

/-- The latest_completion CTE: SELECT date, completed FROM habit_completions
WHERE habit_id = ? ORDER BY date DESC LIMIT 1.  Returns the row with the
maximal date (unique by the UNIQUE(habit_id, date) constraint). -/
def maxDateRow : List HabitCompletionData → Option HabitCompletionData
  | [] => none
  | c :: rest =>
    match maxDateRow rest with
    | none => some c
    | some m => if m.date < c.date then some c else some m

/-- The recursive part of the streak CTE: starting just below day d, count how
many consecutive earlier days have a completed row for the habit.  The fuel
bounds the recursion; the chain visits pairwise distinct dates drawn from the
row list, so fuel = number of rows suffices. -/
def streakFrom (rows : List HabitCompletionData) (d : Day) : Nat → Nat
  | 0 => 0
  | fuel + 1 =>
    if rows.any (fun r => r.date == d - 1 && r.completed) then
      1 + streakFrom rows (d - 1) fuel
    else 0

/-- get_habit_streak: the recursive CTE anchors on the latest completion of
the habit only if it is completed, then walks backward day by day over
completed rows; the result is COALESCE(MAX(days), 0). -/
def get_habit_streak (db : DB) (habit_id : String) : Nat :=
  let rows := db.habit_completions.filter (fun r => r.habit_id == habit_id)
  match maxDateRow rows with
  | none => 0
  | some latest =>
    if latest.completed then 1 + streakFrom rows latest.date rows.length
    else 0

-- ===========================================================================
-- Referential Integrity Coordinator: delete_goal (goals.rs 119-198),
-- delete_habit (habits.rs 169-182)
-- ===========================================================================

inductive DeleteStrategy where
  | cascade
  | nullify
  deriving DecidableEq, Repr

/-- goals.rs 129-132: Some("cascade") selects Cascade, anything else
(None, unrecognized) defaults to Nullify. -/
def parseDeleteStrategy : Option String → DeleteStrategy
  | some s => if s == "cascade" then .cascade else .nullify
  | none => .nullify

/-- update_habit_linked_goals_tx: scan every habit row, parse its linked_goals
JSON list, and if the list contains the goal id, retain only the other
entries and write the list back.  (The source skips rows whose linked_goals
fail to parse; in the model the column always holds its parsed list.) -/
def update_habit_linked_goals_tx (db : DB) (goal_id : String) : DB :=
  { db with
    habits := db.habits.map (fun h =>
      if h.linked_goals.contains goal_id then
        { h with linked_goals := h.linked_goals.filter (fun g => !(g == goal_id)) }
      else h) }

/-- One round of the ON DELETE CASCADE closure on tasks.parent_task_id: tasks
whose parent is already marked dead and which are not yet marked. -/
def deadStep (tasks : List TaskRow) (dead : List String) : List TaskRow :=
  tasks.filter (fun t =>
    (match t.parent_task_id with
     | some p => dead.contains p
     | none => false) && !(dead.contains t.id))

/-- Transitive closure of the parent_task_id cascade, starting from an initial
set of dead task ids.  Each productive round marks at least one new task, so
fuel = number of tasks reaches the fixed point. -/
def deadClosure (tasks : List TaskRow) : List String → Nat → List String
  | dead, 0 => dead
  | dead, n + 1 =>
    let more := deadStep tasks dead
    if more.isEmpty then dead
    else deadClosure tasks (dead ++ more.map (fun t => t.id)) n

/-- SQLite semantics of DELETE FROM tasks WHERE p with foreign_keys = ON:
the rows matching p are deleted together with, recursively, every task whose
parent_task_id chain leads into the deleted set (ON DELETE CASCADE on the
self reference). -/
def deleteTasksWhere (tasks : List TaskRow) (p : TaskRow → Bool) : List TaskRow :=
  let dead := deadClosure tasks ((tasks.filter p).map (fun t => t.id)) tasks.length
  tasks.filter (fun t => !(dead.contains t.id))

/-- delete_goal (goals.rs 119-162), one transaction:
1. remove the goal id from every habit linked_goals list;
2. Cascade: DELETE FROM tasks WHERE goal_id = id, Nullify: UPDATE tasks SET
   goal_id = NULL WHERE goal_id = id;
3. DELETE FROM goals WHERE id = id (with foreign_keys = ON this cascades to
   any task still referencing the goal, via tasks.goal_id ON DELETE CASCADE);
returns rows_affected > 0 of step 3 and the committed state. -/
def delete_goal (db : DB) (id : String) (delete_strategy : Option String) :
    Bool × DB :=
  let strategy := parseDeleteStrategy delete_strategy
  let db1 := update_habit_linked_goals_tx db id
  let db2 :=
    match strategy with
    | .cascade =>
      { db1 with tasks := deleteTasksWhere db1.tasks (fun t => t.goal_id == some id) }
    | .nullify =>
      { db1 with tasks := db1.tasks.map (fun (t : TaskRow) =>
          if t.goal_id == some id then { t with goal_id := none } else t) }
  let existed := db2.goals.any (fun g => g.id == id)
  let db3 :=
    { db2 with
      goals := db2.goals.filter (fun g => !(g.id == id)),
      tasks := deleteTasksWhere db2.tasks (fun t => t.goal_id == some id) }
  (existed, db3)

/-- delete_habit (habits.rs 169-182): DELETE FROM habits WHERE id = id; the
habit_completions rows referencing the habit are removed by the storage level
ON DELETE CASCADE (foreign_keys = ON).  Returns rows_affected > 0. -/
def delete_habit (db : DB) (id : String) : Bool × DB :=
  let existed := db.habits.any (fun h => h.id == id)
  (existed,
   { db with
     habits := db.habits.filter (fun h => !(h.id == id)),
     habit_completions := db.habit_completions.filter (fun c => !(c.habit_id == id)) })

-- ===========================================================================
-- create_habit_completion (habit_completions.rs 44-87)
-- ===========================================================================

/-- The DO UPDATE arm of the upsert: overwrite the listed columns with the
excluded (incoming) values; id, habit_id, date and created_at are not in the
SET list and keep the stored values. -/
def upsertCompletionRow (r c : HabitCompletionData) : HabitCompletionData :=
  { r with
    completed := c.completed,
    actual_amount := c.actual_amount,
    target_amount := c.target_amount,
    completed_at := c.completed_at,
    note := c.note,
    mood := c.mood,
    difficulty := c.difficulty,
    skipped := c.skipped,
    updated_at := c.updated_at }

/-- create_habit_completion: INSERT ... ON CONFLICT(habit_id, date) DO UPDATE.
If a row with the same (habit_id, date) exists, that row is updated in place
(the DO UPDATE does not touch habit_id, so no foreign key check fires).
Otherwise a plain insert: the id primary key and the habit_id foreign key are
checked, then the row is appended.  On success the command echoes its
argument. -/
def create_habit_completion (db : DB) (c : HabitCompletionData) :
    Except String (HabitCompletionData × DB) :=
  if db.habit_completions.any (fun r => r.habit_id == c.habit_id && r.date == c.date) then
    .ok (c, { db with
      habit_completions := db.habit_completions.map (fun r =>
        if r.habit_id == c.habit_id && r.date == c.date then upsertCompletionRow r c
        else r) })
  else if db.habit_completions.any (fun r => r.id == c.id) then
    .error "Failed to create habit completion: UNIQUE constraint failed: habit_completions.id"
  else if !(db.habits.any (fun h => h.id == c.habit_id)) then
    .error "Failed to create habit completion: FOREIGN KEY constraint failed"
  else
    .ok (c, { db with habit_completions := db.habit_completions ++ [c] })

/-- Post-state of create_habit_completion (the connection state after the
command; on error the single INSERT statement has no effect). -/
def create_habit_completion_post (db : DB) (c : HabitCompletionData) : DB :=
  match create_habit_completion db c with
  | .ok r => r.2
  | .error _ => db

-- ===========================================================================
-- Bulk Transfer Engine: export_all_data / import_all_data (settings.rs)
-- ===========================================================================

/-- export_tasks_data reads only (id, title, done, goal_id, due_date,
priority, created_at) from the tasks table into a TaskData: the
parent_task_id and updated_at columns are not part of the export document. -/
def taskToData (t : TaskRow) : TaskData :=
  { id := t.id, title := t.title, done := t.done, goal_id := t.goal_id,
    due_date := t.due_date, priority := t.priority, created_at := t.created_at }

/-- export_all_data (settings.rs 537-569): fails if the settings singleton was
never saved, otherwise reads every row of every entity table and wraps them
with metadata; total_records is the sum of the four row counts, export_date
is the wall clock (a parameter here), version is "1.0.0". -/
def export_all_data (now : String) (db : DB) : Except String ExportData :=
  match db.settings with
  | none => .error "Settings not initialized"
  | some s =>
    let goals := db.goals
    let tasks := db.tasks.map taskToData
    let habits := db.habits
    let completions := db.habit_completions
    .ok
      { settings := s,
        goals := goals,
        tasks := tasks,
        habits := habits,
        habit_completions := completions,
        export_metadata :=
          { export_date := now,
            version := "1.0.0",
            total_records :=
              goals.length + tasks.length + habits.length + completions.length } }

/-- INSERT INTO goals (all twelve columns): only the id primary key can
conflict; every NOT NULL column is supplied. -/
def insertGoalRow (db : DB) (g : GoalData) : Except String DB :=
  if db.goals.any (fun x => x.id == g.id) then
    .error ("Failed to insert goal " ++ g.id ++ ": UNIQUE constraint failed: goals.id")
  else .ok { db with goals := db.goals ++ [g] }

def insertAllGoals : DB → List GoalData → Except String DB
  | db, [] => .ok db
  | db, g :: rest =>
    match insertGoalRow db g with
    | .error e => .error e
    | .ok db2 => insertAllGoals db2 rest

/-- The INSERT of import_tasks_data supplies the columns (id, title, done,
goal_id, due_date, priority, created_at).  The tasks table declares
updated_at TEXT NOT NULL with no default, so the unsupplied column is NULL
and every such insert fails the NOT NULL constraint. -/
def insertTaskRowFromDoc (_db : DB) (t : TaskData) : Except String DB :=
  .error ("Failed to insert task " ++ t.id ++ ": NOT NULL constraint failed: tasks.updated_at")

def insertAllTasks : DB → List TaskData → Except String DB
  | db, [] => .ok db
  | db, t :: rest =>
    match insertTaskRowFromDoc db t with
    | .error e => .error e
    | .ok db2 => insertAllTasks db2 rest

/-- INSERT INTO habits (all seventeen columns): only the id primary key can
conflict (the habits table has no foreign keys). -/
def insertHabitRow (db : DB) (h : HabitData) : Except String DB :=
  if db.habits.any (fun x => x.id == h.id) then
    .error ("Failed to insert habit " ++ h.id ++ ": UNIQUE constraint failed: habits.id")
  else .ok { db with habits := db.habits ++ [h] }

def insertAllHabits : DB → List HabitData → Except String DB
  | db, [] => .ok db
  | db, h :: rest =>
    match insertHabitRow db h with
    | .error e => .error e
    | .ok db2 => insertAllHabits db2 rest

/-- INSERT INTO habit_completions (all thirteen columns): checked constraints
are the id primary key, the habit_id foreign key (foreign_keys = ON) and the
UNIQUE(habit_id, date) index. -/
def insertCompletionRow (db : DB) (c : HabitCompletionData) : Except String DB :=
  if db.habit_completions.any (fun r => r.id == c.id) then
    .error ("Failed to insert habit completion " ++ c.id ++
      ": UNIQUE constraint failed: habit_completions.id")
  else if !(db.habits.any (fun h => h.id == c.habit_id)) then
    .error ("Failed to insert habit completion " ++ c.id ++ ": FOREIGN KEY constraint failed")
  else if db.habit_completions.any (fun r => r.habit_id == c.habit_id && r.date == c.date) then
    .error ("Failed to insert habit completion " ++ c.id ++
      ": UNIQUE constraint failed: habit_completions.habit_id, habit_completions.date")
  else .ok { db with habit_completions := db.habit_completions ++ [c] }

def insertAllCompletions : DB → List HabitCompletionData → Except String DB
  | db, [] => .ok db
  | db, c :: rest =>
    match insertCompletionRow db c with
    | .error e => .error e
    | .ok db2 => insertAllCompletions db2 rest

/-- import_goals_data (settings.rs 316-338): DELETE FROM tasks, DELETE FROM
goals (children before parents; both tables end empty, so no cascade fires),
then insert each document goal. -/
def import_goals_data (db : DB) (goals : List GoalData) : Except String DB :=
  insertAllGoals { db with tasks := [], goals := [] } goals

/-- import_tasks_data (settings.rs 340-356): insert each document task (see
insertTaskRowFromDoc for the NOT NULL failure of every such insert). -/
def import_tasks_data (db : DB) (tasks : List TaskData) : Except String DB :=
  insertAllTasks db tasks

/-- import_habits_data (settings.rs 358-383): DELETE FROM habit_completions,
DELETE FROM habits, then insert each document habit. -/
def import_habits_data (db : DB) (habits : List HabitData) : Except String DB :=
  insertAllHabits { db with habit_completions := [], habits := [] } habits

/-- import_habit_completions_data (settings.rs 385-404): insert each document
completion. -/
def import_habit_completions_data (db : DB) (cs : List HabitCompletionData) :
    Except String DB :=
  insertAllCompletions db cs

/-- save_settings_to_db_impl (settings.rs 150-165): INSERT OR UPDATE of the
settings singleton row; always succeeds on a well formed connection. -/
def save_settings_to_db_impl (db : DB) (s : AppSettings) : DB :=
  { db with settings := some s }

/-- The body of the import transaction (settings.rs 589-608): goals, tasks,
habits, habit completions, settings, stopping at the first error. -/
def import_all_tx (doc : ExportData) (db : DB) : Except String DB :=
  match import_goals_data db doc.goals with
  | .error e => .error e
  | .ok db1 =>
    match import_tasks_data db1 doc.tasks with
    | .error e => .error e
    | .ok db2 =>
      match import_habits_data db2 doc.habits with
      | .error e => .error e
      | .ok db3 =>
        match import_habit_completions_data db3 doc.habit_completions with
        | .error e => .error e
        | .ok db4 => .ok (save_settings_to_db_impl db4 doc.settings)

/-- import_all_data (settings.rs 572-621): run the whole import inside one
transaction and return a count summary; any error aborts before commit.
(The JSON parse of the document string is the serde inverse of the export
serialization and is modelled at the structured document level.) -/
def import_all_data (doc : ExportData) (db : DB) : Except String String :=
  match import_all_tx doc db with
  | .error e => .error e
  | .ok _ =>
    .ok ("Successfully imported " ++ toString doc.goals.length ++ " goals, " ++
      toString doc.tasks.length ++ " tasks, " ++ toString doc.habits.length ++
      " habits, and " ++ toString doc.habit_completions.length ++ " habit completions")

/-- Post-state of import_all_data: the committed state on success; on any
error the transaction is rolled back on drop, leaving the previous state. -/
def import_all_post (doc : ExportData) (db : DB) : DB :=
  match import_all_tx doc db with
  | .ok db2 => db2
  | .error _ => db

/-- Two document completions with the same (habit_id, date) pair. -/
def hasDupPairB : List HabitCompletionData → Bool
  | [] => false
  | c :: rest =>
    rest.any (fun r => r.habit_id == c.habit_id && r.date == c.date) || hasDupPairB rest

/-- The UNIQUE(habit_id, date) invariant of the habit_completions table. -/
abbrev pairsUnique (l : List HabitCompletionData) : Prop :=
  l.Pairwise (fun a b => ¬(a.habit_id = b.habit_id ∧ a.date = b.date))

-- ===========================================================================
-- Concrete fixtures (used by witnesses and counterexamples)
-- ===========================================================================

def mkGoal (id : String) : GoalData :=
  { id := id, title := "goal", description := "", notes := "", category := "personal",
    priority := "medium", status := "active", color := "#fff", icon := "star",
    deadline := none, created_at := "2024-01-01", updated_at := "2024-01-01" }

def mkTask (id : String) (goal parent : Option String) : TaskRow :=
  { id := id, title := "task", done := false, goal_id := goal,
    parent_task_id := parent, due_date := none, priority := "medium",
    created_at := "2024-01-01", updated_at := "2024-01-02" }

def mkHabit (id : String) (linked : List String) : HabitRow :=
  { id := id, name := "habit", category := "health", icon := "run", color := "#0f0",
    target_amount := 1, unit := "times", frequency_type := "daily",
    frequency_value := "1", priority := "medium", notes := "", linked_goals := linked,
    start_date := "2024-01-01", reminder_enabled := false, reminder_time := "09:00",
    created_at := "2024-01-01", updated_at := "2024-01-01" }

def mkCompletion (id habit : String) (d : Day) (done : Bool) : HabitCompletionData :=
  { id := id, habit_id := habit, date := d, completed := done,
    actual_amount := 0, target_amount := 1, completed_at := none, note := "",
    mood := none, difficulty := none, skipped := false,
    created_at := "2024-01-01", updated_at := "2024-01-01" }

def settings0 : AppSettings :=
  { appearance := { theme := "dark", week_starts_on := "monday", timezone := "UTC" },
    habits := { default_reminder := false, default_reminder_time := "09:00",
                default_priority := "medium" },
    goals := { deadline_warning_days := 7, default_category := "personal",
               show_progress_percentage := true },
    notifications := { habit_reminders := true, goal_deadlines := true,
                       streak_milestones := false, daily_summary := false,
                       weekly_summary := false, motivational_quotes := false },
    data := { auto_backup := false, backup_frequency := "weekly" } }

def emptyDB : DB :=
  { goals := [], tasks := [], habits := [], habit_completions := [], settings := none }

/-- Streak fixture: Mon(1)✓ Tue(2)✓ Wed(3)✗ Thu(4)✓, most recent Thu. -/
def dbStreakBreak : DB :=
  { emptyDB with
    habits := [mkHabit "h1" []],
    habit_completions :=
      [mkCompletion "c1" "h1" 1 true, mkCompletion "c2" "h1" 2 true,
       mkCompletion "c3" "h1" 3 false, mkCompletion "c4" "h1" 4 true] }

/-- Streak fixture: three consecutive completed days, no gaps. -/
def dbStreakThree : DB :=
  { emptyDB with
    habits := [mkHabit "h1" []],
    habit_completions :=
      [mkCompletion "c1" "h1" 1 true, mkCompletion "c2" "h1" 2 true,
       mkCompletion "c3" "h1" 3 true] }

/-- Streak fixture: a single completed record. -/
def dbStreakSingle : DB :=
  { emptyDB with
    habits := [mkHabit "h1" []],
    habit_completions := [mkCompletion "c1" "h1" 5 true] }

/-- Streak fixture: the most recent completion is not marked completed. -/
def dbStreakLatestMiss : DB :=
  { emptyDB with
    habits := [mkHabit "h1" []],
    habit_completions :=
      [mkCompletion "c1" "h1" 1 true, mkCompletion "c2" "h1" 2 false] }

-- ===========================================================================
-- Theorems
-- ===========================================================================

/-- Claim C3: computeStreak returns 1 for the history Mon done, Tue done, Wed
not done, Thu done (the streak breaks at Wed); 3 for three consecutive
completed days; 0 for an empty history; 1 for a single completed record; and
in general a non-negative integer (the model returns a Nat) that is 0
whenever the most recent completion of the habit is not marked completed. -/
theorem computeStreak_spec :
    get_habit_streak dbStreakBreak "h1" = 1 ∧
    get_habit_streak dbStreakThree "h1" = 3 ∧
    get_habit_streak emptyDB "h1" = 0 ∧
    get_habit_streak dbStreakSingle "h1" = 1 ∧
    (∀ (db : DB) (hid : String) (latest : HabitCompletionData),
      maxDateRow (db.habit_completions.filter (fun r => r.habit_id == hid)) = some latest →
      latest.completed = false →
      get_habit_streak db hid = 0) := by
  refine ⟨by decide, by decide, by decide, by decide, ?_⟩
  intro db hid latest hmax hcomp
  simp only [get_habit_streak, hmax, hcomp]
  simp

/-- Witness for C3: the general zero clause of computeStreak_spec applied to a
concrete history whose most recent completion is not completed. -/
theorem computeStreak_spec_witness :
    get_habit_streak dbStreakLatestMiss "h1" = 0 :=
  computeStreak_spec.2.2.2.2 dbStreakLatestMiss "h1" (mkCompletion "c2" "h1" 2 false)
    (by decide) (by decide)

theorem deadClosure_succ (tasks : List TaskRow) (dead : List String) (n : Nat) :
    deadClosure tasks dead (n + 1) =
      if (deadStep tasks dead).isEmpty then dead
      else deadClosure tasks (dead ++ (deadStep tasks dead).map (fun t => t.id)) n := rfl

theorem subset_deadClosure (tasks : List TaskRow) :
    ∀ (n : Nat) (dead : List String), dead ⊆ deadClosure tasks dead n := by
  intro n
  induction n with
  | zero => intro dead; exact fun _ h => h
  | succ m ih =>
    intro dead
    rw [deadClosure_succ]
    split
    · exact fun _ h => h
    · exact (List.subset_append_left _ _).trans (ih _)

/-- Rows surviving a cascading task delete were in the table and did not match
the delete condition. -/
theorem mem_deleteTasksWhere {ts : List TaskRow} {p : TaskRow → Bool} {t : TaskRow}
    (h : t ∈ deleteTasksWhere ts p) : t ∈ ts ∧ p t = false := by
  have h' : t ∈ ts.filter (fun u =>
      !((deadClosure ts ((ts.filter p).map (fun u => u.id)) ts.length).contains u.id)) := h
  have hmem := List.mem_of_mem_filter h'
  have hkeep := List.of_mem_filter h'
  refine ⟨hmem, ?_⟩
  cases hpt : p t with
  | false => rfl
  | true =>
    exfalso
    have hid : t.id ∈ (ts.filter p).map (fun u => u.id) :=
      List.mem_map.mpr ⟨t, List.mem_filter.mpr ⟨hmem, hpt⟩, rfl⟩
    have hdead := subset_deadClosure ts ts.length _ hid
    simp at hkeep
    exact hkeep hdead

/-- A cascading task delete whose condition matches no row deletes nothing. -/
theorem deleteTasksWhere_noop {ts : List TaskRow} {p : TaskRow → Bool}
    (h : ∀ t ∈ ts, p t = false) : deleteTasksWhere ts p = ts := by
  have hfil : ts.filter p = [] := by
    rw [List.filter_eq_nil_iff]
    intro a ha
    simp [h a ha]
  have hclosed : ∀ n, deadClosure ts ([] : List String) n = [] := by
    intro n
    cases n with
    | zero => rfl
    | succ m =>
      rw [deadClosure_succ]
      have hstep : deadStep ts [] = [] := by
        rw [deadStep, List.filter_eq_nil_iff]
        intro a _
        cases a.parent_task_id <;> simp [List.contains]
      simp [hstep]
  simp only [deleteTasksWhere, hfil, List.map_nil, hclosed]
  rw [List.filter_eq_self]
  intro a _
  simp [List.contains]

/-- Claim C4: for every Goal G present in the database, after
deleteGoal(G, Cascade) succeeds, no Task row has goal_id = G and no Habit
linked-goals collection contains G. -/
theorem deleteGoal_cascade_spec (db : DB) (id : String)
    (hg : db.goals.any (fun g => g.id == id) = true) :
    (delete_goal db id (some "cascade")).1 = true ∧
    (∀ t ∈ (delete_goal db id (some "cascade")).2.tasks, t.goal_id ≠ some id) ∧
    (∀ h ∈ (delete_goal db id (some "cascade")).2.habits, id ∉ h.linked_goals) := by
  have hhab : (delete_goal db id (some "cascade")).2.habits =
      (update_habit_linked_goals_tx db id).habits := rfl
  have htasks : (delete_goal db id (some "cascade")).2.tasks =
      deleteTasksWhere
        (deleteTasksWhere (update_habit_linked_goals_tx db id).tasks
          (fun t => t.goal_id == some id))
        (fun t => t.goal_id == some id) := rfl
  have hfst : (delete_goal db id (some "cascade")).1 =
      db.goals.any (fun g => g.id == id) := rfl
  refine ⟨by rw [hfst]; exact hg, ?_, ?_⟩
  · intro t ht
    rw [htasks] at ht
    have hp := (mem_deleteTasksWhere ht).2
    simpa using hp
  · intro h hmem
    rw [hhab] at hmem
    simp only [update_habit_linked_goals_tx] at hmem
    obtain ⟨h0, _, rfl⟩ := List.mem_map.mp hmem
    by_cases hc : h0.linked_goals.contains id = true
    · simp only [hc, if_true]
      intro habs
      have := List.of_mem_filter habs
      simp at this
    · simp only [hc, if_false]
      intro habs
      exact hc (List.elem_iff.mpr habs)

def dbDel : DB :=
  { goals := [mkGoal "g1", mkGoal "g2"],
    tasks := [mkTask "t1" (some "g1") none, mkTask "t2" none (some "t1"),
              mkTask "t3" (some "g2") none],
    habits := [mkHabit "h1" ["g1", "g2"], mkHabit "h2" ["g2"]],
    habit_completions := [mkCompletion "c1" "h1" 1 true],
    settings := some settings0 }

/-- Witness for C4 at a concrete populated database. -/
theorem deleteGoal_cascade_spec_witness :
    (delete_goal dbDel "g1" (some "cascade")).1 = true :=
  (deleteGoal_cascade_spec dbDel "g1" (by decide)).1

/-- Claim C5: for every Goal G present in the database, after
deleteGoal(G, Nullify) succeeds, every Task row that previously had
goal_id = G still exists (no task row is deleted at all) and now has
goal_id = null, its other columns unchanged — despite the storage level
ON DELETE CASCADE foreign key from tasks.goal_id to goals.id, because the
nullify update runs before the goal row delete. -/
theorem deleteGoal_nullify_spec (db : DB) (id : String)
    (hg : db.goals.any (fun g => g.id == id) = true) :
    (delete_goal db id (some "nullify")).1 = true ∧
    (delete_goal db id (some "nullify")).2.tasks.length = db.tasks.length ∧
    (∀ t ∈ db.tasks, t.goal_id = some id →
      { t with goal_id := none } ∈ (delete_goal db id (some "nullify")).2.tasks) := by
  have hfst : (delete_goal db id (some "nullify")).1 =
      db.goals.any (fun g => g.id == id) := rfl
  have htasks : (delete_goal db id (some "nullify")).2.tasks =
      deleteTasksWhere
        (db.tasks.map (fun (t : TaskRow) =>
          if t.goal_id == some id then { t with goal_id := none } else t))
        (fun t => t.goal_id == some id) := rfl
  have hnomatch : ∀ u ∈ db.tasks.map (fun (t : TaskRow) =>
      if t.goal_id == some id then { t with goal_id := none } else t),
      (u.goal_id == some id) = false := by
    intro u hu
    obtain ⟨t, _, rfl⟩ := List.mem_map.mp hu
    cases hgt : (t.goal_id == some id) with
    | true => simp [hgt]
    | false => simp [hgt]
  have hkeep : (delete_goal db id (some "nullify")).2.tasks =
      db.tasks.map (fun (t : TaskRow) =>
        if t.goal_id == some id then { t with goal_id := none } else t) := by
    rw [htasks]
    exact deleteTasksWhere_noop hnomatch
  refine ⟨by rw [hfst]; exact hg, by rw [hkeep, List.length_map], ?_⟩
  intro t ht hgoal
  rw [hkeep]
  refine List.mem_map.mpr ⟨t, ht, ?_⟩
  rw [if_pos]
  rw [hgoal]
  simp

/-- Witness for C5 at a concrete populated database. -/
theorem deleteGoal_nullify_spec_witness :
    { mkTask "t1" (some "g1") none with goal_id := none }
      ∈ (delete_goal dbDel "g1" (some "nullify")).2.tasks :=
  (deleteGoal_nullify_spec dbDel "g1" (by decide)).2.2
    (mkTask "t1" (some "g1") none) (by decide) rfl

/-- Claim C6: for every Habit H present in the database, deleteHabit(H)
returns true and afterwards zero HabitCompletion rows reference H (the
dependent completions are removed by the forced storage cascade). -/
theorem deleteHabit_spec (db : DB) (id : String)
    (hh : db.habits.any (fun h => h.id == id) = true) :
    (delete_habit db id).1 = true ∧
    (∀ c ∈ (delete_habit db id).2.habit_completions, c.habit_id ≠ id) := by
  refine ⟨hh, ?_⟩
  intro c hc
  have hc' : c ∈ db.habit_completions.filter (fun r => !(r.habit_id == id)) := hc
  have := List.of_mem_filter hc'
  simpa using this

/-- Witness for C6 at a concrete populated database. -/
theorem deleteHabit_spec_witness : (delete_habit dbDel "h1").1 = true :=
  (deleteHabit_spec dbDel "h1" (by decide)).1

theorem map_self {α : Type} (l : List α) (f : α → α) (h : ∀ a ∈ l, f a = a) :
    l.map f = l := by
  induction l with
  | nil => rfl
  | cons a rest ih =>
    have ha : f a = a := h a (by simp)
    have hrest := ih (fun x hx => h x (by simp [hx]))
    simp [ha, hrest]

/-- Claim C7: deleting a goal id that references no existing Goal row (in a
state satisfying the §3 invariants: no task references the missing id via
goal_id — guaranteed by the enforced foreign key — and no habit linked-goals
list contains it) returns false and leaves every table unchanged, for any
strategy string. -/
theorem deleteGoal_missing_spec (db : DB) (id : String) (s : Option String)
    (hg : ∀ g ∈ db.goals, g.id ≠ id)
    (hh : ∀ h ∈ db.habits, id ∉ h.linked_goals)
    (ht : ∀ t ∈ db.tasks, t.goal_id ≠ some id) :
    delete_goal db id s = (false, db) := by
  have hupd : update_habit_linked_goals_tx db id = db := by
    simp only [update_habit_linked_goals_tx]
    have hmap : db.habits.map (fun h =>
        if h.linked_goals.contains id then
          { h with linked_goals := h.linked_goals.filter (fun g => !(g == id)) }
        else h) = db.habits := by
      apply map_self
      intro h hmem
      rw [if_neg (by simpa using hh h hmem)]
    rw [hmap]
  have hcascnoop : deleteTasksWhere db.tasks (fun t => t.goal_id == some id) = db.tasks := by
    apply deleteTasksWhere_noop
    intro t htm
    simpa using ht t htm
  have hnullnoop : db.tasks.map (fun (t : TaskRow) =>
      if t.goal_id == some id then { t with goal_id := none } else t) = db.tasks := by
    apply map_self
    intro t htm
    rw [if_neg]
    simpa using ht t htm
  have hany : db.goals.any (fun g => g.id == id) = false := by
    simp only [List.any_eq_false]
    intro g hmem
    simp [hg g hmem]
  have hfilter : db.goals.filter (fun g => !(g.id == id)) = db.goals := by
    rw [List.filter_eq_self]
    intro g hmem
    simp [hg g hmem]
  cases hps : parseDeleteStrategy s with
  | cascade =>
    simp only [delete_goal, hps, hupd, hcascnoop, hany, hfilter]
  | nullify =>
    simp only [delete_goal, hps, hupd, hnullnoop, hcascnoop, hany, hfilter]

/-- Witness for C7: deleting the absent goal id g9 from a populated database
changes nothing and reports false. -/
theorem deleteGoal_missing_spec_witness :
    delete_goal dbDel "g9" (some "cascade") = (false, dbDel) :=
  deleteGoal_missing_spec dbDel "g9" (some "cascade") (by decide) (by decide) (by decide)

/-- Claim C8: exportAll fails with a reported error (an Except error, not a
crash and not a partial export) exactly when the settings singleton was never
saved; when settings exist it succeeds with a document carrying the settings,
every row of every entity table, and a metadata record whose total_records is
the sum of the four entity row counts. -/
theorem exportAll_spec (now : String) (db : DB) :
    (db.settings = none → export_all_data now db = .error "Settings not initialized") ∧
    (∀ s doc, db.settings = some s → export_all_data now db = Except.ok doc →
      doc.settings = s ∧
      doc.goals = db.goals ∧
      doc.tasks = db.tasks.map taskToData ∧
      doc.habits = db.habits ∧
      doc.habit_completions = db.habit_completions ∧
      doc.export_metadata.total_records =
        db.goals.length + db.tasks.length + db.habits.length +
          db.habit_completions.length) ∧
    (∀ s, db.settings = some s → isErrorE (export_all_data now db) = false) := by
  refine ⟨?_, ?_, ?_⟩
  · intro h
    simp [export_all_data, h]
  · intro s doc hset hok
    simp only [export_all_data, hset] at hok
    injection hok with hdoc
    subst hdoc
    simp
  · intro s hset
    simp [export_all_data, hset, isErrorE]

/-- Witness for C8: on a populated database with saved settings the export
succeeds. -/
theorem exportAll_spec_witness : isErrorE (export_all_data "t0" dbDel) = false :=
  (exportAll_spec "t0" dbDel).2.2 settings0 rfl

def dbUpsert : DB :=
  { emptyDB with
    habits := [mkHabit "h1" []],
    habit_completions := [mkCompletion "c1" "h1" 5 true] }

def cDup : HabitCompletionData :=
  { mkCompletion "c2" "h1" 5 false with note := "second", updated_at := "2024-02-02" }

/-- Claim C9 counterexample: creating a HabitCompletion for a (habit_id, date)
pair that already has a stored row does NOT surface an error to the caller:
the ON CONFLICT(habit_id, date) DO UPDATE clause turns it into a successful
in-place update. -/
theorem createCompletion_duplicate_not_error :
    create_habit_completion dbUpsert cDup =
      .ok (cDup, { dbUpsert with
        habit_completions := [upsertCompletionRow (mkCompletion "c1" "h1" 5 true) cDup] }) := by
  rfl

/-- Claim C9 (amended): creating a HabitCompletion for a (habit_id, date) pair
that already has a stored row is not an error: the statement succeeds as an
in-place update, and the invariant of at most one completion per
(habit_id, date) is preserved. -/
theorem createCompletion_duplicate_upsert (db : DB) (c : HabitCompletionData)
    (hex : db.habit_completions.any
      (fun r => r.habit_id == c.habit_id && r.date == c.date) = true)
    (huniq : pairsUnique db.habit_completions) :
    isErrorE (create_habit_completion db c) = false ∧
    pairsUnique (create_habit_completion_post db c).habit_completions := by
  have hres : create_habit_completion db c =
      .ok (c, { db with habit_completions := db.habit_completions.map (fun r =>
        if r.habit_id == c.habit_id && r.date == c.date then upsertCompletionRow r c
        else r) }) := by
    simp only [create_habit_completion, hex, if_true]
  have hpost : (create_habit_completion_post db c).habit_completions =
      db.habit_completions.map (fun r =>
        if r.habit_id == c.habit_id && r.date == c.date then upsertCompletionRow r c
        else r) := by
    simp only [create_habit_completion_post, hres]
  refine ⟨by rw [hres]; rfl, ?_⟩
  have hfix : ∀ r : HabitCompletionData,
      (if r.habit_id == c.habit_id && r.date == c.date then upsertCompletionRow r c
       else r).habit_id = r.habit_id ∧
      (if r.habit_id == c.habit_id && r.date == c.date then upsertCompletionRow r c
       else r).date = r.date := by
    intro r
    split <;> exact ⟨rfl, rfl⟩
  unfold pairsUnique
  rw [hpost, List.pairwise_map]
  exact List.Pairwise.imp
    (fun {a} {b} hab => by rw [(hfix a).1, (hfix a).2, (hfix b).1, (hfix b).2]; exact hab)
    huniq

/-- Witness for the amended C9 at a concrete database holding the pair. -/
theorem createCompletion_duplicate_upsert_witness :
    isErrorE (create_habit_completion dbUpsert cDup) = false :=
  (createCompletion_duplicate_upsert dbUpsert cDup (by decide) (by decide)).1

/-- Claim C10: when create_habit_completion is called with a (habit_id, date)
pair that already has a stored completion, the operation succeeds echoing its
argument, no row is added or removed, every stored row matching the pair takes
the new completed, actual_amount, target_amount, completed_at, note, mood,
difficulty, skipped and updated_at values while keeping its original id and
created_at (the record-update below touches exactly those nine fields), and
every non-matching row is untouched. -/
theorem createCompletion_upsert_frame (db : DB) (c : HabitCompletionData)
    (hex : db.habit_completions.any
      (fun r => r.habit_id == c.habit_id && r.date == c.date) = true) :
    create_habit_completion db c = .ok (c, create_habit_completion_post db c) ∧
    (create_habit_completion_post db c).habit_completions.length =
      db.habit_completions.length ∧
    (∀ r ∈ db.habit_completions, r.habit_id = c.habit_id → r.date = c.date →
      { r with
        completed := c.completed,
        actual_amount := c.actual_amount,
        target_amount := c.target_amount,
        completed_at := c.completed_at,
        note := c.note,
        mood := c.mood,
        difficulty := c.difficulty,
        skipped := c.skipped,
        updated_at := c.updated_at }
        ∈ (create_habit_completion_post db c).habit_completions) ∧
    (∀ r ∈ db.habit_completions, ¬(r.habit_id = c.habit_id ∧ r.date = c.date) →
      r ∈ (create_habit_completion_post db c).habit_completions) := by
  have hres : create_habit_completion db c =
      .ok (c, { db with habit_completions := db.habit_completions.map (fun r =>
        if r.habit_id == c.habit_id && r.date == c.date then upsertCompletionRow r c
        else r) }) := by
    simp only [create_habit_completion, hex, if_true]
  have hpost : (create_habit_completion_post db c).habit_completions =
      db.habit_completions.map (fun r =>
        if r.habit_id == c.habit_id && r.date == c.date then upsertCompletionRow r c
        else r) := by
    simp only [create_habit_completion_post, hres]
  refine ⟨?_, ?_, ?_, ?_⟩
  · rw [hres]
    simp only [create_habit_completion_post, hres]
  · rw [hpost, List.length_map]
  · intro r hr hhid hdate
    rw [hpost]
    refine List.mem_map.mpr ⟨r, hr, ?_⟩
    rw [if_pos (by simp [hhid, hdate])]
    exact rfl
  · intro r hr hne
    rw [hpost]
    refine List.mem_map.mpr ⟨r, hr, ?_⟩
    rw [if_neg (by simp only [Bool.and_eq_true, beq_iff_eq]; exact hne)]

/-- Witness for C10: the upsert at a concrete database neither adds nor
removes a row. -/
theorem createCompletion_upsert_frame_witness :
    (create_habit_completion_post dbUpsert cDup).habit_completions.length =
      dbUpsert.habit_completions.length :=
  (createCompletion_upsert_frame dbUpsert cDup (by decide)).2.1

/-- A successful completion insert appends the row and certifies that the
table had no row with the same (habit_id, date) pair. -/
theorem insertCompletionRow_ok {db db2 : DB} {c : HabitCompletionData}
    (h : insertCompletionRow db c = .ok db2) :
    db2.habit_completions = db.habit_completions ++ [c] ∧
    db.habit_completions.any
      (fun r => r.habit_id == c.habit_id && r.date == c.date) = false := by
  unfold insertCompletionRow at h
  split at h
  · cases h
  · split at h
    · cases h
    · split at h
      · cases h
      · next hpair =>
        injection h with h2
        subst h2
        exact ⟨rfl, by simpa using hpair⟩

/-- A row pair present in the table stays present across a successful
completion insert. -/
theorem pair_present_after_insert {db db2 : DB} {c : HabitCompletionData}
    {hid : String} {d : Day}
    (h : insertCompletionRow db c = .ok db2)
    (hp : db.habit_completions.any (fun r => r.habit_id == hid && r.date == d) = true) :
    db2.habit_completions.any (fun r => r.habit_id == hid && r.date == d) = true := by
  rw [(insertCompletionRow_ok h).1, List.any_append, hp]
  rfl

/-- Inserting a list containing a (habit_id, date) pair already present in
the table always errors. -/
theorem insertAll_pair_error {hid : String} {d : Day} :
    ∀ (l : List HabitCompletionData) (db : DB),
      db.habit_completions.any (fun r => r.habit_id == hid && r.date == d) = true →
      l.any (fun r => r.habit_id == hid && r.date == d) = true →
      isErrorE (insertAllCompletions db l) = true := by
  intro l
  induction l with
  | nil =>
    intro db _ hl
    simp at hl
  | cons c rest ih =>
    intro db hdb hl
    unfold insertAllCompletions
    cases hins : insertCompletionRow db c with
    | error e => rfl
    | ok db2 =>
      have hnot := (insertCompletionRow_ok hins).2
      have hcnomatch : (c.habit_id == hid && c.date == d) = false := by
        cases hcm : (c.habit_id == hid && c.date == d) with
        | false => rfl
        | true =>
          exfalso
          simp only [Bool.and_eq_true, beq_iff_eq] at hcm
          rw [hcm.1, hcm.2] at hnot
          simp [hnot] at hdb
      have hrest : rest.any (fun r => r.habit_id == hid && r.date == d) = true := by
        simp only [List.any_cons, hcnomatch, Bool.false_or] at hl
        exact hl
      exact ih db2 (pair_present_after_insert hins hdb) hrest

/-- Inserting a completion list with an internal duplicate (habit_id, date)
pair always errors, from any starting table. -/
theorem insertAll_dup_error :
    ∀ (l : List HabitCompletionData) (db : DB), hasDupPairB l = true →
      isErrorE (insertAllCompletions db l) = true := by
  intro l
  induction l with
  | nil =>
    intro db h
    simp [hasDupPairB] at h
  | cons c rest ih =>
    intro db h
    unfold insertAllCompletions
    cases hins : insertCompletionRow db c with
    | error e => rfl
    | ok db2 =>
      rw [hasDupPairB] at h
      cases hor : rest.any (fun r => r.habit_id == c.habit_id && r.date == c.date) with
      | true =>
        have hdb2 : db2.habit_completions.any
            (fun r => r.habit_id == c.habit_id && r.date == c.date) = true := by
          rw [(insertCompletionRow_ok hins).1, List.any_append]
          simp
        exact insertAll_pair_error rest db2 hdb2 hor
      | false =>
        rw [hor, Bool.false_or] at h
        exact ih db2 h

/-- Claim C2: for every starting database state and every document whose
habit-completions section contains two entries with the same
(habit_id, date) pair, importAll returns an error and the post-call state of
all five tables is exactly the pre-call state: the transaction is rolled
back, no partial replacement is observable. -/
theorem importAll_dup_atomic (db : DB) (doc : ExportData)
    (hdup : hasDupPairB doc.habit_completions = true) :
    isErrorE (import_all_data doc db) = true ∧ import_all_post doc db = db := by
  have htx : isErrorE (import_all_tx doc db) = true := by
    unfold import_all_tx
    cases h1 : import_goals_data db doc.goals with
    | error e => rfl
    | ok db1 =>
      cases h2 : import_tasks_data db1 doc.tasks with
      | error e => simp [isErrorE, h2]
      | ok db2 =>
        cases h3 : import_habits_data db2 doc.habits with
        | error e => simp [isErrorE, h2, h3]
        | ok db3 =>
          have herr := insertAll_dup_error doc.habit_completions db3 hdup
          cases h4 : import_habit_completions_data db3 doc.habit_completions with
          | error e => simp [isErrorE, h2, h3, h4]
          | ok db4 =>
            have h4' : insertAllCompletions db3 doc.habit_completions = .ok db4 := h4
            rw [h4'] at herr
            simp [isErrorE] at herr
  cases htxe : import_all_tx doc db with
  | error e =>
    constructor
    · simp [import_all_data, htxe, isErrorE]
    · simp [import_all_post, htxe]
  | ok d =>
    rw [htxe] at htx
    simp [isErrorE] at htx

def docDup : ExportData :=
  { settings := settings0,
    goals := [],
    tasks := [],
    habits := [mkHabit "h1" []],
    habit_completions := [mkCompletion "c1" "h1" 3 true, mkCompletion "c2" "h1" 3 false],
    export_metadata := { export_date := "t0", version := "1.0.0", total_records := 3 } }

/-- Witness for C2: a duplicated-pair document against a populated database
errors and leaves the database untouched. -/
theorem importAll_dup_atomic_witness :
    isErrorE (import_all_data docDup dbDel) = true ∧
    import_all_post docDup dbDel = dbDel :=
  importAll_dup_atomic dbDel docDup (by decide)

def dbC1 : DB :=
  { goals := [mkGoal "g1"],
    tasks := [mkTask "t1" (some "g1") none],
    habits := [],
    habit_completions := [],
    settings := some settings0 }

def docC1 : ExportData :=
  { settings := settings0,
    goals := [mkGoal "g1"],
    tasks := [taskToData (mkTask "t1" (some "g1") none)],
    habits := [],
    habit_completions := [],
    export_metadata := { export_date := "t0", version := "1.0.0", total_records := 2 } }

/-- Claim C1 fails on the code (code bug): on a populated database with a
saved settings record and a single task, exportAll succeeds, but importAll of
the very document exportAll produced errors — the task INSERT of the import
omits the NOT NULL column tasks.updated_at — so the claimed round trip never
succeeds for a data set containing a task; and the export document cannot
even carry parent_task_id or updated_at: two distinct task rows differing
only in those columns export to identical TaskData records. -/
theorem roundtrip_task_bug :
    export_all_data "t0" dbC1 = .ok docC1 ∧
    import_all_data docC1 dbC1 =
      .error "Failed to insert task t1: NOT NULL constraint failed: tasks.updated_at" ∧
    import_all_post docC1 dbC1 = dbC1 ∧
    taskToData (mkTask "t1" (some "g1") none) =
      taskToData { mkTask "t1" (some "g1") none with
        parent_task_id := some "t9", updated_at := "2030-12-31" } ∧
    mkTask "t1" (some "g1") none ≠
      { mkTask "t1" (some "g1") none with
        parent_task_id := some "t9", updated_at := "2030-12-31" } := by
  refine ⟨rfl, rfl, rfl, rfl, by decide⟩
